import Mathlib

/-!
Verification of the ticket/session subsystem of the `shook` support bot.

The embedding models the two source modules:
* `src/app.py` — handlers `start`, `capture_user_text`, `cmd_reply` and the
  `db_*` helpers they call;
* `src/db_pg.py` — the alternate store module (`save_ticket`,
  `get_ticket_by_admin_msg_id`), modelled with the `pg_` name space.

Database tables (`tickets`, `starts`, `support_sessions`) are modelled as
lists of rows inside `DbState`; `NOW()` is an explicit integer parameter
(seconds); the messaging transport is modelled by passing the outcome of the
outbound send (`Option Int`: the delivered message id, or `none` when the
send raised).  Python values whose static type varies (DB cells, dict
fields) are modelled by `PyVal`; a Python `IndexError` is an
`Except.error "IndexError"`.
-/

namespace Shook

/-- A scalar cell of a fetched DB row. -/
inductive Cell where
  | cint (n : Int)
  | cstr (s : String)
  deriving Repr, DecidableEq

/-- A Python runtime value as it appears in result dicts: a scalar, or a
whole fetched tuple. -/
inductive PyVal where
  | pint (n : Int)
  | pstr (s : String)
  | ptuple (vs : List Cell)
  deriving Repr, DecidableEq

/-- Inject a row cell into a Python value. -/
def Cell.toPy : Cell → PyVal
  | .cint n => .pint n
  | .cstr s => .pstr s

/-- A row of the `tickets` table (schema of `db_init_schema`). -/
structure Ticket where
  ticket_id : Int
  user_id : Int
  section_ : String
  admin_msg_id : Int
  status : String
  created_at : Int
  deriving Repr, DecidableEq

/-- A row of the `support_sessions` table. -/
structure SessionRow where
  user_id : Int
  section_ : String
  started_at : Int
  last_activity : Int
  deriving Repr, DecidableEq

/-- A row of the `starts` table. -/
structure StartRow where
  user_id : Int
  started_at : Int
  deriving Repr, DecidableEq

/-- The durable store: the three tables plus the serial counter backing
`tickets.ticket_id`. -/
structure DbState where
  tickets : List Ticket
  starts : List StartRow
  sessions : List SessionRow
  nextTicketId : Int
  deriving Repr, DecidableEq

/-- `ADMIN_CHAT_ID = int(os.getenv("ADMIN_CHAT_ID", "8088620127"))` with the
default value. -/
def ADMIN_CHAT_ID : Int := 8088620127

/-- `INTERVAL '24 hours'` in seconds. -/
def hours24 : Int := 86400

/-- Python truthiness of an optional string: `None` and `""` are falsy. -/
def pyTruthy : Option String → Bool
  | none => false
  | some s => !(s == "")

/-- Python `a or b` on optional strings. -/
def pyOr (a b : Option String) : Option String :=
  if pyTruthy a then a else b

/-- `db_save_ticket` / SQL insert with `RETURNING ticket_id` (`app.py`
returns `row[0]`, the bare id). -/
def db_save_ticket (s : DbState) (user_id : Int) (sec : String)
    (admin_msg_id : Int) (now : Int) : DbState × Int :=
  let t : Ticket :=
    { ticket_id := s.nextTicketId, user_id := user_id, section_ := sec
      admin_msg_id := admin_msg_id, status := "open", created_at := now }
  ({ s with tickets := s.tickets ++ [t], nextTicketId := s.nextTicketId + 1 },
   s.nextTicketId)

/-- `db_save_start`: append-only insert into `starts`. -/
def db_save_start (s : DbState) (user_id now : Int) : DbState :=
  { s with starts := s.starts ++ [{ user_id := user_id, started_at := now }] }

/-- `db_start_support_session`: `INSERT ... ON CONFLICT (user_id) DO UPDATE
SET section = %s, last_activity = NOW()`. -/
def db_start_support_session (s : DbState) (user_id : Int) (sec : String)
    (now : Int) : DbState :=
  if s.sessions.any (fun r => r.user_id == user_id) then
    { s with sessions := s.sessions.map (fun r =>
        if r.user_id == user_id then
          { r with section_ := sec, last_activity := now }
        else r) }
  else
    { s with sessions := s.sessions ++
        [{ user_id := user_id, section_ := sec, started_at := now,
           last_activity := now }] }

/-- `db_get_support_session`: `SELECT section FROM support_sessions WHERE
user_id = %s AND last_activity > NOW() - INTERVAL '24 hours'`, `fetchone`. -/
def db_get_support_session (s : DbState) (user_id now : Int) : Option String :=
  (s.sessions.find? (fun r =>
      r.user_id == user_id && decide (now - hours24 < r.last_activity))).map
    (fun r => r.section_)

/-- `db_end_support_session`: `DELETE FROM support_sessions WHERE user_id = %s`. -/
def db_end_support_session (s : DbState) (user_id : Int) : DbState :=
  { s with sessions := s.sessions.filter (fun r => !(r.user_id == user_id)) }

/-- The row fetched by `SELECT ticket_id, user_id, section FROM tickets WHERE
admin_msg_id = %s` followed by `fetchone` (first matching row, insertion
order). -/
def selectTicketRow (s : DbState) (admin_msg_id : Int) : Option (List Cell) :=
  (s.tickets.find? (fun t => t.admin_msg_id == admin_msg_id)).map
    (fun t => [Cell.cint t.ticket_id, Cell.cint t.user_id,
               Cell.cstr t.section_])

/-- Python tuple indexing `row[i]`: raises `IndexError` out of bounds. -/
def pyIndex (row : List Cell) (i : Nat) : Except String Cell :=
  match row.get? i with
  | some v => Except.ok v
  | none => Except.error "IndexError"

/-- The dict built by the ticket lookup:
`{"ticket_id": ..., "user_id": ..., "section": ...}`. -/
structure TicketView where
  ticket_id : PyVal
  user_id : PyVal
  section_ : PyVal
  deriving Repr, DecidableEq

/-- `app.py` `db_get_ticket_by_admin_msg_id`: guards `not row or
len(row) != 3`, then reads `row[0]`, `row[1]`, `row[2]`. -/
def db_get_ticket_by_admin_msg_id (s : DbState) (admin_msg_id : Int) :
    Except String (Option TicketView) :=
  match selectTicketRow s admin_msg_id with
  | none => Except.ok none
  | some row =>
    if row.length ≠ 3 then Except.ok none
    else do
      let a ← pyIndex row 0
      let b ← pyIndex row 1
      let c ← pyIndex row 2
      Except.ok (some { ticket_id := a.toPy, user_id := b.toPy,
                        section_ := c.toPy })

/-- `db_pg.py` `save_ticket`: same insert, but returns `cur.fetchone()`
itself — the one-element tuple `(ticket_id,)`. -/
def pg_save_ticket (s : DbState) (user_id : Int) (sec : String)
    (admin_msg_id : Int) (now : Int) : DbState × PyVal :=
  let r := db_save_ticket s user_id sec admin_msg_id now
  (r.1, PyVal.ptuple [Cell.cint r.2])

/-- `db_pg.py` `get_ticket_by_admin_msg_id`: on a found row returns
`{"ticket_id": row, "user_id": row[8], "section": row[9]}`. -/
def pg_get_ticket_by_admin_msg_id (s : DbState) (admin_msg_id : Int) :
    Except String (Option TicketView) :=
  match selectTicketRow s admin_msg_id with
  | none => Except.ok none
  | some row => do
    let u ← pyIndex row 8
    let c ← pyIndex row 9
    Except.ok (some { ticket_id := PyVal.ptuple row, user_id := u.toPy,
                      section_ := c.toPy })

/-- The two capture-enabling categories checked by `capture_user_text`. -/
def CAPTURE_SECTIONS : List String := ["Schedule a Call", "Talk To Support"]

/-- `ACK_TEXT` from `app.py`. -/
def ACK_TEXT : String :=
  "Thanks! Our team will get back to you here shortly. In the meantime, you can restart the bot and read more about our service using command /start"

/-- `build_ticket_header`: prefers `@username`, falls back to the display
name, always includes the numeric id and the message text. -/
def build_ticket_header (sec : String) (user_id : Int)
    (username : Option String) (fullName : String) (text : String) : String :=
  let uname := if pyTruthy username then "@" ++ username.getD "" else fullName
  "[" ++ sec ++ "] From " ++ uname ++ " (id " ++ toString user_id ++ "):\n"
    ++ text

/-- The inline `UPDATE support_sessions SET last_activity = NOW() WHERE
user_id = %s` executed inside `capture_user_text`. -/
def touch_session (s : DbState) (user_id now : Int) : DbState :=
  { s with sessions := s.sessions.map (fun r =>
      if r.user_id == user_id then { r with last_activity := now } else r) }

/-- Result of one run of `capture_user_text`: the store afterwards, the
header delivered to `ADMIN_CHAT_ID` (id and text) if any, whether the
acknowledgment was sent to the user, and whether the handler raised. -/
structure CaptureResult where
  db : DbState
  headerSent : Option (Int × String)
  ackSent : Bool
  raised : Bool
  deriving Repr, DecidableEq

/-- `capture_user_text`.  `chatType` is `update.effective_chat.type`;
`userDataSection` is `context.user_data.get("section")` (the transient
flag); `sendOutcome` is the outcome of `bot.send_message` to
`ADMIN_CHAT_ID`: `some id` delivers and returns the message id, `none`
raises (aborting the handler). -/
def capture_user_text (chatType : String) (userDataSection : Option String)
    (db : DbState) (user_id : Int) (username : Option String)
    (fullName : String) (text : String) (now : Int)
    (sendOutcome : Option Int) : CaptureResult :=
  if chatType ≠ "private" then ⟨db, none, false, false⟩
  else
    let session_section := userDataSection
    let db_section := db_get_support_session db user_id now
    let sec? := pyOr session_section db_section
    if (sec?.map (fun c => CAPTURE_SECTIONS.contains c)).getD false then
      let sec := sec?.getD ""
      let header := build_ticket_header sec user_id username fullName text
      match sendOutcome with
      | none => ⟨db, none, false, true⟩
      | some admin_msg_id =>
        let db1 := (db_save_ticket db user_id sec admin_msg_id now).1
        let db2 := if pyTruthy db_section then touch_session db1 user_id now
                   else db1
        ⟨db2, some (admin_msg_id, header), true, false⟩
    else ⟨db, none, false, false⟩

/-- Python `str.strip()`: drop whitespace from both ends. -/
def pyStrip (l : List Char) : List Char :=
  ((l.dropWhile Char.isWhitespace).reverse.dropWhile Char.isWhitespace).reverse

/-- `msg.text.removeprefix("/reply").strip() if msg.text else ""`. -/
def strip_reply_cmd (t : Option String) : String :=
  match t with
  | none => ""
  | some s =>
    let l := if s.data.take 6 = "/reply".data then s.data.drop 6 else s.data
    ⟨pyStrip l⟩

/-- Render a Python value inside an f-string. -/
def pyValStr : PyVal → String
  | .pint n => toString n
  | .pstr s => s
  | .ptuple _ => "(tuple)"

/-- Result of one run of `cmd_reply`: the store afterwards (the handler
performs no writes), the replies posted back into the operator chat, the
message delivered to the mapped user (chat id and text) if any, and whether
the handler raised. -/
structure ReplyResult where
  db : DbState
  adminReplies : List String
  userDelivery : Option (PyVal × String)
  raised : Bool
  deriving Repr, DecidableEq

/-- `cmd_reply`.  `chat_id` is `update.effective_chat.id`; `reply_to` is the
id of the message the operator replied to, if any; `text` is
`msg.text`. -/
def cmd_reply (db : DbState) (chat_id : Int) (reply_to : Option Int)
    (text : Option String) : ReplyResult :=
  if chat_id ≠ ADMIN_CHAT_ID then ⟨db, [], none, false⟩
  else
    match reply_to with
    | none =>
      ⟨db, ["Please reply to a ticket message with /reply <text>."], none,
       false⟩
    | some replied_id =>
      match db_get_ticket_by_admin_msg_id db replied_id with
      | .error _ => ⟨db, [], none, true⟩
      | .ok none =>
        ⟨db, ["Couldn\x27t find the ticket mapping. Please reply to the original ticket header."],
         none, false⟩
      | .ok (some ticket) =>
        let args_text := strip_reply_cmd text
        if args_text = "" then
          ⟨db, ["Usage: /reply <message to user>"], none, false⟩
        else
          ⟨db, ["Sent to user " ++ pyValStr ticket.user_id ++ "."],
           some (ticket.user_id, args_text), false⟩

/-- The `/start` handler (store-relevant part): logs the start, deletes the
support session of the calling user, clears `user_data` (so the transient
flag becomes `None`).  Returns the new store and the new transient flag. -/
def start_handler (db : DbState) (user_id now : Int) :
    DbState × Option String :=
  let db1 := db_save_start db user_id now
  let db2 := db_end_support_session db1 user_id
  (db2, none)

/-- The `support_sessions` primary-key invariant: one row per `user_id`. -/
def sessionsUnique (s : DbState) : Prop :=
  s.sessions.Pairwise (fun a b => a.user_id ≠ b.user_id)

/-! ## Helper lemmas -/

theorem selectTicketRow_save (s : DbState) (uid : Int) (sec : String)
    (M now : Int) (hM : ∀ t ∈ s.tickets, t.admin_msg_id ≠ M) :
    selectTicketRow (db_save_ticket s uid sec M now).1 M =
      some [Cell.cint s.nextTicketId, Cell.cint uid, Cell.cstr sec] := by
  have h1 : s.tickets.find? (fun t => t.admin_msg_id == M) = none := by
    rw [List.find?_eq_none]
    intro x hx
    simpa using hM x hx
  simp [selectTicketRow, db_save_ticket, List.find?_append, h1]

theorem db_get_ticket_after_save (s : DbState) (uid : Int) (sec : String)
    (M now : Int) (hM : ∀ t ∈ s.tickets, t.admin_msg_id ≠ M) :
    db_get_ticket_by_admin_msg_id (db_save_ticket s uid sec M now).1 M =
      Except.ok (some { ticket_id := PyVal.pint s.nextTicketId,
                        user_id := PyVal.pint uid,
                        section_ := PyVal.pstr sec }) := by
  rw [db_get_ticket_by_admin_msg_id, selectTicketRow_save s uid sec M now hM]
  rfl

/-! ## Claim theorems -/

/-- C1: a ticket persisted with `admin_msg_id = M` (no other ticket sharing
`M`) is resolved by a subsequent reply-to-`M` event to exactly the stored
`user_id` and `section`, and the stripped operator text is delivered to that
`user_id`. -/
theorem save_then_reply_roundtrip (s : DbState) (uid : Int) (sec : String)
    (M now : Int) (T : String)
    (hM : ∀ t ∈ s.tickets, t.admin_msg_id ≠ M)
    (hT : strip_reply_cmd (some T) ≠ "") :
    db_get_ticket_by_admin_msg_id (db_save_ticket s uid sec M now).1 M =
      Except.ok (some { ticket_id := PyVal.pint s.nextTicketId,
                        user_id := PyVal.pint uid,
                        section_ := PyVal.pstr sec })
    ∧ (cmd_reply (db_save_ticket s uid sec M now).1 ADMIN_CHAT_ID (some M)
        (some T)).userDelivery
      = some (PyVal.pint uid, strip_reply_cmd (some T)) := by
  refine ⟨db_get_ticket_after_save s uid sec M now hM, ?_⟩
  rw [cmd_reply]
  simp [db_get_ticket_after_save s uid sec M now hM, hT]

/-- C1 witness. -/
theorem save_then_reply_roundtrip_wit :
    (∀ t ∈ (⟨[], [], [], 1⟩ : DbState).tickets, t.admin_msg_id ≠ 5)
    ∧ strip_reply_cmd (some "/reply hi") ≠ ""
    ∧ (cmd_reply (db_save_ticket ⟨[], [], [], 1⟩ 7 "Talk To Support" 5 0).1
        ADMIN_CHAT_ID (some 5) (some "/reply hi")).userDelivery
      = some (PyVal.pint 7, strip_reply_cmd (some "/reply hi")) :=
  ⟨by simp, by decide,
   (save_then_reply_roundtrip ⟨[], [], [], 1⟩ 7 "Talk To Support" 5 0
      "/reply hi" (by simp) (by decide)).2⟩

/-- C2: on a found row the `db_pg.py` lookup indexes the 3-column row at
positions 8 and 9 and raises `IndexError`, while the `app.py` lookup returns
the populated ticket view on the same store. -/
theorem pg_lookup_raises_on_found_row :
    pg_get_ticket_by_admin_msg_id
        (db_save_ticket ⟨[], [], [], 1⟩ 7 "Talk To Support" 5 0).1 5
      = Except.error "IndexError"
    ∧ db_get_ticket_by_admin_msg_id
        (db_save_ticket ⟨[], [], [], 1⟩ 7 "Talk To Support" 5 0).1 5
      = Except.ok (some { ticket_id := PyVal.pint 1, user_id := PyVal.pint 7,
                          section_ := PyVal.pstr "Talk To Support" }) :=
  ⟨rfl, rfl⟩

/-- C8: on a successful insert the `db_pg.py` `save_ticket` returns the
whole fetched one-element tuple, not the bare id; the `app.py` twin returns
the bare id. -/
theorem pg_save_ticket_returns_wrapped_row :
    (pg_save_ticket ⟨[], [], [], 1⟩ 7 "Talk To Support" 5 0).2
      = PyVal.ptuple [Cell.cint 1]
    ∧ (db_save_ticket ⟨[], [], [], 1⟩ 7 "Talk To Support" 5 0).2 = 1 :=
  ⟨rfl, rfl⟩

/-- C5: `db_get_support_session` returns a category only from a row of the
caller whose `last_activity` lies inside the 24-hour window; when every row
of the caller is older than 24 hours the lookup behaves as absent, although
no row is deleted (the operation performs no write at all). -/
theorem getActiveSession_freshness (s : DbState) (uid now : Int) :
    (∀ c, db_get_support_session s uid now = some c →
      ∃ r ∈ s.sessions, r.user_id = uid ∧ now - hours24 < r.last_activity
        ∧ r.section_ = c)
    ∧ ((∀ r ∈ s.sessions, r.user_id = uid →
          r.last_activity < now - hours24) →
        db_get_support_session s uid now = none) := by
  constructor
  · intro c hc
    rw [db_get_support_session, Option.map_eq_some'] at hc
    obtain ⟨r, hr, hrc⟩ := hc
    have hmem := List.mem_of_find?_eq_some hr
    have hp := List.find?_some hr
    simp only [Bool.and_eq_true, beq_iff_eq, decide_eq_true_eq] at hp
    exact ⟨r, hmem, hp.1, hp.2, hrc⟩
  · intro h
    rw [db_get_support_session, Option.map_eq_none', List.find?_eq_none]
    intro r hr
    simp only [Bool.and_eq_true, beq_iff_eq, decide_eq_true_eq, not_and]
    intro hru
    have := h r hr hru
    omega

/-- C5 witness: a single stale row (last activity at 0, now far later) is
reported absent while it is still stored. -/
theorem getActiveSession_freshness_wit :
    (∀ r ∈ (⟨[], [], [⟨7, "Talk To Support", 0, 0⟩], 1⟩ : DbState).sessions,
      r.user_id = 7 → r.last_activity < 200000 - hours24)
    ∧ db_get_support_session ⟨[], [], [⟨7, "Talk To Support", 0, 0⟩], 1⟩
        7 200000 = none :=
  ⟨by decide,
   (getActiveSession_freshness ⟨[], [], [⟨7, "Talk To Support", 0, 0⟩], 1⟩
      7 200000).2 (by decide)⟩

/-- C9: in the operator chat a `/reply` that is not itself a reply is
answered with the usage hint, with no delivery to any user and the store
unchanged; outside the operator chat the command is a silent no-op. -/
theorem reply_guard (db : DbState) (text : Option String) (chat_id : Int)
    (rt : Option Int) :
    cmd_reply db ADMIN_CHAT_ID none text =
      ⟨db, ["Please reply to a ticket message with /reply <text>."], none,
       false⟩
    ∧ (chat_id ≠ ADMIN_CHAT_ID →
        cmd_reply db chat_id rt text = ⟨db, [], none, false⟩) := by
  constructor
  · simp [cmd_reply]
  · intro h
    simp [cmd_reply, h]

/-- After the unconditional delete, the active-session lookup for that user
is empty. -/
theorem db_get_after_end (s : DbState) (uid now : Int) :
    db_get_support_session (db_end_support_session s uid) uid now = none := by
  rw [db_get_support_session, Option.map_eq_none', List.find?_eq_none]
  intro r hr
  simp only [db_end_support_session, List.mem_filter, Bool.not_eq_true',
    beq_eq_false_iff_ne] at hr
  simp [hr.2]

/-- When neither signal resolves to a value, `capture_user_text` is a
no-op. -/
theorem capture_user_text_not_captured (ud : Option String) (db : DbState)
    (uid : Int) (un : Option String) (fn text : String) (now : Int)
    (so : Option Int)
    (h : pyOr ud (db_get_support_session db uid now) = none) :
    capture_user_text "private" ud db uid un fn text now so =
      ⟨db, none, false, false⟩ := by
  rw [capture_user_text]
  simp [h]

/-- C6: after `/start`, both capture signals are cleared: the transient flag
is `None` and the durable session row is deleted, so any subsequent
free-text message is not captured (no header, no ticket, no
acknowledgment) and the store is left exactly as `/start` left it. -/
theorem restart_clears_capture (s : DbState) (uid now now2 : Int)
    (un : Option String) (fn text : String) (so : Option Int) :
    capture_user_text "private" (start_handler s uid now).2
        (start_handler s uid now).1 uid un fn text now2 so =
      ⟨(start_handler s uid now).1, none, false, false⟩ := by
  apply capture_user_text_not_captured
  have h : db_get_support_session (start_handler s uid now).1 uid now2
      = none :=
    db_get_after_end (db_save_start s uid now) uid now2
  simp [start_handler, pyOr, pyTruthy] at h ⊢
  exact h

/-- A duplicate-free list with a hit has exactly one hit. -/
theorem countP_user_eq_one (l : List SessionRow) (uid : Int)
    (hp : l.Pairwise (fun a b => a.user_id ≠ b.user_id))
    (hex : ∃ r ∈ l, r.user_id = uid) :
    l.countP (fun r => r.user_id == uid) = 1 := by
  induction l with
  | nil => simp at hex
  | cons a tl ih =>
    obtain ⟨ha, htl⟩ := List.pairwise_cons.1 hp
    by_cases hau : a.user_id = uid
    · rw [List.countP_cons_of_pos _ _ (by simpa using hau)]
      have h0 : tl.countP (fun r => r.user_id == uid) = 0 := by
        rw [List.countP_eq_zero]
        intro x hx
        have := ha x hx
        simp only [beq_iff_eq]
        omega
      omega
    · rw [List.countP_cons_of_neg _ _ (by simpa using hau)]
      apply ih htl
      obtain ⟨r, hr, hru⟩ := hex
      rcases List.mem_cons.1 hr with h | h
      · exact absurd (h ▸ hru) hau
      · exact ⟨r, h, hru⟩

/-- C7: the session upsert keyed by the primary key `user_id` preserves
row-per-user uniqueness, leaves exactly one row for the caller — with
`section` replaced and `last_activity` reset to now — never duplicates, and
leaves the rows of every other user as they were. -/
theorem session_upsert_idempotent (s : DbState) (uid : Int) (sec : String)
    (now : Int) (h : sessionsUnique s) :
    sessionsUnique (db_start_support_session s uid sec now)
    ∧ (db_start_support_session s uid sec now).sessions.countP
        (fun r => r.user_id == uid) = 1
    ∧ (∃ r ∈ (db_start_support_session s uid sec now).sessions,
        r.user_id = uid ∧ r.section_ = sec ∧ r.last_activity = now)
    ∧ (∀ r ∈ (db_start_support_session s uid sec now).sessions,
        r.user_id ≠ uid → r ∈ s.sessions) := by
  rw [sessionsUnique] at h
  rw [db_start_support_session]
  by_cases hany : s.sessions.any (fun r => r.user_id == uid) = true
  · obtain ⟨r0, hr0, hr0u⟩ := List.any_eq_true.1 hany
    simp only [beq_iff_eq] at hr0u
    simp only [hany, if_true]
    set f : SessionRow → SessionRow := fun r =>
      if r.user_id == uid then { r with section_ := sec, last_activity := now }
      else r with hf
    have hfid : ∀ r : SessionRow, (f r).user_id = r.user_id := by
      intro r
      by_cases hr : r.user_id = uid <;> simp [hf, hr]
    refine ⟨?_, ?_, ?_, ?_⟩
    · rw [sessionsUnique]
      simp only [List.pairwise_map, hfid]
      exact h
    · rw [List.countP_map]
      have : ((fun r : SessionRow => r.user_id == uid) ∘ f)
          = fun r : SessionRow => r.user_id == uid := by
        funext r
        simp [Function.comp, hfid r]
      rw [this]
      exact countP_user_eq_one s.sessions uid h ⟨r0, hr0, hr0u⟩
    · refine ⟨f r0, List.mem_map_of_mem f hr0, ?_⟩
      simp [hf, hr0u]
    · intro r hr hru
      obtain ⟨r1, hr1, rfl⟩ := List.mem_map.1 hr
      by_cases h1 : r1.user_id = uid
      · rw [hfid r1] at hru
        exact absurd h1 hru
      · simpa [hf, h1] using hr1
  · rw [Bool.not_eq_true] at hany
    have hall := List.any_eq_false.1 hany
    simp only [hany, Bool.false_eq_true, if_false]
    refine ⟨?_, ?_, ?_, ?_⟩
    · rw [sessionsUnique]
      rw [List.pairwise_append]
      refine ⟨h, by simp, ?_⟩
      intro a ha b hb
      have := hall a ha
      simp only [beq_iff_eq] at this
      simp only [List.mem_singleton] at hb
      subst hb
      simpa using this
    · rw [List.countP_append]
      have h0 : s.sessions.countP (fun r => r.user_id == uid) = 0 := by
        rw [List.countP_eq_zero]
        exact hall
      simp [h0]
    · exact ⟨⟨uid, sec, now, now⟩, by simp, rfl, rfl, rfl⟩
    · intro r hr hru
      rcases List.mem_append.1 hr with h1 | h1
      · exact h1
      · simp only [List.mem_singleton] at h1
        subst h1
        simp at hru

/-- C7 witness: refreshing twice with the same category on an
initially-empty table keeps one row. -/
theorem session_upsert_idempotent_wit :
    sessionsUnique (db_start_support_session ⟨[], [], [], 1⟩ 7
      "Talk To Support" 10)
    ∧ (db_start_support_session
        (db_start_support_session ⟨[], [], [], 1⟩ 7 "Talk To Support" 10)
        7 "Talk To Support" 20).sessions.countP
        (fun r => r.user_id == 7) = 1 := by
  have h1 := session_upsert_idempotent ⟨[], [], [], 1⟩ 7 "Talk To Support" 10
    (by rw [sessionsUnique]; simp)
  have h2 := session_upsert_idempotent
    (db_start_support_session ⟨[], [], [], 1⟩ 7 "Talk To Support" 10)
    7 "Talk To Support" 20 h1.1
  exact ⟨h1.1, h2.2.1⟩

/-- Dispatch of `capture_user_text` when a capture category is resolved:
on a failed send the handler raises with nothing written and no ack; on a
delivered send it persists the ticket keyed by the delivered id, refreshes
`last_activity` only when the durable lookup was truthy, and acks. -/
theorem capture_user_text_captured (ud : Option String) (db : DbState)
    (uid : Int) (un : Option String) (fn text : String) (now : Int)
    (c : String)
    (hsec : pyOr ud (db_get_support_session db uid now) = some c)
    (hc : c ∈ CAPTURE_SECTIONS) :
    capture_user_text "private" ud db uid un fn text now none =
      ⟨db, none, false, true⟩
    ∧ ∀ mid, capture_user_text "private" ud db uid un fn text now (some mid)
      = ⟨(if pyTruthy (db_get_support_session db uid now) then
            touch_session (db_save_ticket db uid c mid now).1 uid now
          else (db_save_ticket db uid c mid now).1),
         some (mid, build_ticket_header c uid un fn text), true, false⟩ := by
  have hcontains : CAPTURE_SECTIONS.contains c = true := List.elem_iff.2 hc
  constructor
  · rw [capture_user_text]
    simp [hsec, hcontains]
    exact hc
  · intro mid
    rw [capture_user_text]
    simp [hsec, hcontains]
    exact hc

/-- C3: with a capture category resolved, a failed header delivery aborts
the handler — no ticket row is written and no acknowledgment is sent —
while a successful delivery is followed by exactly one ticket row keyed by
the delivered message id, and the acknowledgment. -/
theorem relay_persist_after_delivery (ud : Option String) (db : DbState)
    (uid : Int) (un : Option String) (fn text : String) (now : Int)
    (c : String)
    (hsec : pyOr ud (db_get_support_session db uid now) = some c)
    (hc : c ∈ CAPTURE_SECTIONS) :
    capture_user_text "private" ud db uid un fn text now none =
      ⟨db, none, false, true⟩
    ∧ ∀ mid,
      (capture_user_text "private" ud db uid un fn text now
          (some mid)).db.tickets
        = db.tickets ++ [⟨db.nextTicketId, uid, c, mid, "open", now⟩]
      ∧ (capture_user_text "private" ud db uid un fn text now
          (some mid)).headerSent
        = some (mid, build_ticket_header c uid un fn text)
      ∧ (capture_user_text "private" ud db uid un fn text now
          (some mid)).ackSent = true := by
  have H := capture_user_text_captured ud db uid un fn text now c hsec hc
  refine ⟨H.1, fun mid => ?_⟩
  rw [H.2 mid]
  by_cases hdb : pyTruthy (db_get_support_session db uid now)
  · simp [hdb, touch_session, db_save_ticket]
  · simp [hdb, db_save_ticket]

/-- C3 witness: a user captured via the transient flag; the failed-delivery
run leaves the empty store unchanged with no ack. -/
theorem relay_persist_after_delivery_wit :
    pyOr (some "Talk To Support")
        (db_get_support_session ⟨[], [], [], 1⟩ 7 50)
      = some "Talk To Support"
    ∧ "Talk To Support" ∈ CAPTURE_SECTIONS
    ∧ capture_user_text "private" (some "Talk To Support") ⟨[], [], [], 1⟩
        7 none "Bob" "Hi" 50 none = ⟨⟨[], [], [], 1⟩, none, false, true⟩ :=
  ⟨by decide, by decide,
   (relay_persist_after_delivery (some "Talk To Support") ⟨[], [], [], 1⟩
      7 none "Bob" "Hi" 50 "Talk To Support" (by decide) (by decide)).1⟩

/-- C4: the transient flag wins whenever set to a capture category,
whatever the durable store holds; with no transient flag the durable
session value is used; with neither signal the message is silently ignored
(store untouched, no header, no ack). -/
theorem capture_signal_resolution (ud : Option String) (db : DbState)
    (uid : Int) (un : Option String) (fn text : String) (now mid : Int)
    (so : Option Int) :
    (∀ c, ud = some c → c ∈ CAPTURE_SECTIONS →
      (capture_user_text "private" ud db uid un fn text now
          (some mid)).headerSent
        = some (mid, build_ticket_header c uid un fn text))
    ∧ (∀ c, ud = none → db_get_support_session db uid now = some c →
        c ∈ CAPTURE_SECTIONS →
      (capture_user_text "private" ud db uid un fn text now
          (some mid)).headerSent
        = some (mid, build_ticket_header c uid un fn text))
    ∧ (ud = none → db_get_support_session db uid now = none →
      capture_user_text "private" ud db uid un fn text now so =
        ⟨db, none, false, false⟩) := by
  refine ⟨?_, ?_, ?_⟩
  · intro c hud hc
    have hc2 : c = "Schedule a Call" ∨ c = "Talk To Support" := by
      simpa [CAPTURE_SECTIONS] using hc
    have hne : ¬(c == "") = true := by
      rcases hc2 with h | h <;> subst h <;> decide
    have hsec : pyOr ud (db_get_support_session db uid now) = some c := by
      rw [hud, pyOr]
      simp [pyTruthy, hne]
    rw [(capture_user_text_captured ud db uid un fn text now c hsec hc).2 mid]
  · intro c hud hdb hc
    have hsec : pyOr ud (db_get_support_session db uid now) = some c := by
      rw [hud, hdb, pyOr]
      simp [pyTruthy]
    rw [(capture_user_text_captured ud db uid un fn text now c hsec hc).2 mid]
  · intro hud hdb
    apply capture_user_text_not_captured
    rw [hud, hdb, pyOr]
    simp [pyTruthy]

/-- C4 witness: transient flag set while the durable table holds a
different fresh category — the transient value is used. -/
theorem capture_signal_resolution_wit :
    (capture_user_text "private" (some "Schedule a Call")
        ⟨[], [], [⟨7, "Talk To Support", 40, 40⟩], 1⟩ 7 (some "bob") "Bob"
        "Hi" 50 (some 9)).headerSent
      = some (9, build_ticket_header "Schedule a Call" 7 (some "bob") "Bob"
          "Hi") :=
  (capture_signal_resolution (some "Schedule a Call")
      ⟨[], [], [⟨7, "Talk To Support", 40, 40⟩], 1⟩ 7 (some "bob") "Bob"
      "Hi" 50 9 (some 9)).1
    "Schedule a Call" rfl (by decide)

/-- C10: when the capture signal came solely from the transient flag (the
durable lookup returned none) the handler leaves `support_sessions` and
`starts` untouched and only appends the ticket row; when the durable lookup
was truthy, the row of the caller gets `last_activity` reset. -/
theorem capture_frame_effects (ud : Option String) (db : DbState)
    (uid : Int) (un : Option String) (fn text : String) (now mid : Int) :
    (∀ c, ud = some c → c ∈ CAPTURE_SECTIONS →
      db_get_support_session db uid now = none →
      (capture_user_text "private" ud db uid un fn text now
          (some mid)).db.sessions = db.sessions
      ∧ (capture_user_text "private" ud db uid un fn text now
          (some mid)).db.starts = db.starts
      ∧ (capture_user_text "private" ud db uid un fn text now
          (some mid)).db.tickets
        = db.tickets ++ [⟨db.nextTicketId, uid, c, mid, "open", now⟩])
    ∧ (∀ c, pyOr ud (db_get_support_session db uid now) = some c →
        c ∈ CAPTURE_SECTIONS →
        pyTruthy (db_get_support_session db uid now) = true →
      (capture_user_text "private" ud db uid un fn text now
          (some mid)).db.sessions
        = db.sessions.map (fun r =>
            if r.user_id == uid then { r with last_activity := now }
            else r)) := by
  constructor
  · intro c hud hc hdb
    have hc2 : c = "Schedule a Call" ∨ c = "Talk To Support" := by
      simpa [CAPTURE_SECTIONS] using hc
    have hne : ¬(c == "") = true := by
      rcases hc2 with h | h <;> subst h <;> decide
    have hsec : pyOr ud (db_get_support_session db uid now) = some c := by
      rw [hud, pyOr]
      simp [pyTruthy, hne]
    rw [(capture_user_text_captured ud db uid un fn text now c hsec hc).2 mid]
    rw [hdb]
    simp [pyTruthy, db_save_ticket]
  · intro c hsec hc hdb
    rw [(capture_user_text_captured ud db uid un fn text now c hsec hc).2 mid]
    simp [hdb, touch_session, db_save_ticket]

/-- C10 witness: transient-only capture on a store whose session table is
empty — sessions and starts unchanged, one ticket appended. -/
theorem capture_frame_effects_wit :
    db_get_support_session ⟨[], [], [], 1⟩ 7 50 = none
    ∧ ((capture_user_text "private" (some "Talk To Support") ⟨[], [], [], 1⟩
          7 (some "bob") "Bob" "Hi" 50 (some 9)).db.sessions
        = ([] : List SessionRow)
      ∧ (capture_user_text "private" (some "Talk To Support") ⟨[], [], [], 1⟩
          7 (some "bob") "Bob" "Hi" 50 (some 9)).db.starts
        = ([] : List StartRow)
      ∧ (capture_user_text "private" (some "Talk To Support") ⟨[], [], [], 1⟩
          7 (some "bob") "Bob" "Hi" 50 (some 9)).db.tickets
        = [⟨1, 7, "Talk To Support", 9, "open", 50⟩]) :=
  ⟨by decide,
   (capture_frame_effects (some "Talk To Support") ⟨[], [], [], 1⟩ 7
      (some "bob") "Bob" "Hi" 50 9).1
     "Talk To Support" rfl (by decide) (by decide)⟩

/-- C9 witness. -/
theorem reply_guard_wit :
    cmd_reply ⟨[], [], [], 1⟩ ADMIN_CHAT_ID none (some "/reply hi") =
      ⟨⟨[], [], [], 1⟩,
       ["Please reply to a ticket message with /reply <text>."], none, false⟩
    ∧ ((0 : Int) ≠ ADMIN_CHAT_ID
        ∧ cmd_reply ⟨[], [], [], 1⟩ 0 (some 5) (some "/reply hi") =
            ⟨⟨[], [], [], 1⟩, [], none, false⟩) :=
  ⟨(reply_guard ⟨[], [], [], 1⟩ (some "/reply hi") 0 none).1,
   by decide,
   (reply_guard ⟨[], [], [], 1⟩ (some "/reply hi") 0 (some 5)).2 (by decide)⟩

end Shook
